import Mathlib

/-!
Shallow embedding of `kithara/dataset/text_completion.py`: the
`TextCompletionDataset` per-sample transformation pipeline
(`task_transform` → `model_transform` → `convert_to_model_specific_input`),
together with the constructor checks of `__init__`.

Python dicts of strings are association lists; numpy 2-D integer arrays are
`List (List Nat)` (row-major); Python exceptions are `Except String`; the
process-wide keras global attribute `MODEL_IMPLEMENTATION` is an explicit
`Option String` argument threaded through the calls that read it.
-/

namespace Kithara

/-- A Python dict of column name to text value, as an association list. -/
abbrev PyDict := List (String × String)

/-- A numpy 2-D integer array, row-major. -/
abbrev Arr := List (List Nat)

/-- Python `d.get(k)`: `none` when the key is missing. -/
def dictGet? (m : PyDict) (k : String) : Option String :=
  (m.find? (fun p => p.1 == k)).map (fun p => p.2)

/-- Python `{**a, **b}`: the keys of `a` first (values overridden by `b`),
then the keys of `b` not present in `a`. -/
def pyDictMerge (a b : PyDict) : PyDict :=
  a.map (fun p => (p.1, (dictGet? b p.1).getD p.2))
    ++ b.filter (fun p => (dictGet? a p.1).isNone)

/-- A HuggingFace tokenizer: an encoding function, a settable pad token
and a pad token id. -/
structure Tokenizer where
  encode : String → List Nat
  pad_token : String
  pad_token_id : Nat

/-- Modelled from the spec: the tag `ModelImplementationType.MAXTEXT` lives in
`kithara.model`, which is not under src/; the spec and the error message in
`convert_to_model_specific_input` name the supported tags `MaxText` and
`KerasHub`. -/
def ModelImplementationType.MAXTEXT : String := "MaxText"

/-- Modelled from the spec: the tag `ModelImplementationType.KERASHUB`, the
generic (KerasHub) backend tag; equal to the default value of the
`model_type` constructor parameter. -/
def ModelImplementationType.KERASHUB : String := "KerasHub"

/-- Keras `global_state.get_global_attribute(name, default)`: the ambient
process-wide attribute when it is set, otherwise the supplied default. -/
def get_global_attribute (g : Option String) (dflt : Option String) : Option String :=
  match g with
  | some v => some v
  | none => dflt

/-- Modelled from the spec: `HFtokenize` from `kithara.dataset.utils` is not
under src/. Per the Tokenization Adapter contract it encodes the (already
marker-wrapped) text, truncates to `seq_len`, right-pads with the pad token
to exactly `seq_len`, and returns `(input_ids, attention_mask)` of shape
`[1, seq_len]` with the attention mask 1 on live tokens and 0 on padding. -/
def HFtokenize (text : String) (tok : Tokenizer) (seq_len : Nat) : Arr × Arr :=
  let ids := (tok.encode text).take seq_len
  let n := ids.length
  ([ids ++ List.replicate (seq_len - n) tok.pad_token_id],
   [List.replicate n 1 ++ List.replicate (seq_len - n) 0])

/-- `np.roll(xs, -1)` on a flattened array: every element moves one slot to
the left, the first element wraps around to the end. -/
def np_roll_neg1 (xs : List Nat) : List Nat :=
  xs.drop 1 ++ xs.take 1

/-- Reshape a flat list into `b` rows of length `L` (numpy reshape after a
flat `np.roll`, row-major). -/
def listChunks : Nat → Nat → List Nat → List (List Nat)
  | 0, _, _ => []
  | b + 1, L, xs => xs.take L :: listChunks b L (xs.drop L)

/-- `arr[:, -1] = pad`: overwrite the last entry of every row. -/
def set_last_col (pad : Nat) (rows : Arr) : Arr :=
  rows.map (fun r => r.take (r.length - 1) ++ [pad])

/-- The label derivation in `model_transform`:
`label_ids = np.roll(input_ids, -1)` (flat roll, reshaped back to the input
shape) followed by `label_ids[:, -1] = pad`. -/
def make_label_ids (pad : Nat) (input_ids : Arr) : Arr :=
  let L := (input_ids.headD []).length
  set_last_col pad (listChunks input_ids.length L (np_roll_neg1 input_ids.flatten))

/-- The state of a `TextCompletionDataset` after `__init__`. -/
structure TextCompletionDataset where
  max_seq_len : Nat
  tokenizer : Tokenizer
  column_mapping : PyDict
  model_type : Option String
  custom_formatting_fn : Option (PyDict → PyDict)
  packing : Bool

/-- The default value of the `model_type` parameter of
`TextCompletionDataset.__init__` (the string `"KerasHub"`). -/
def TextCompletionDataset.default_model_type : Option String :=
  some "KerasHub"

/-- The column mapping stored by `__init__`: the default `{"text": "text"}`,
overridden by a merge with the caller mapping when that mapping is truthy
(present and non-empty). -/
def init_column_mapping (column_mapping : Option PyDict) : PyDict :=
  match column_mapping with
  | none => [("text", "text")]
  | some m => if m.isEmpty then [("text", "text")]
              else pyDictMerge [("text", "text")] m

/-- `TextCompletionDataset.__init__`: asserts that a tokenizer or a handle is
given, fixes the pad token to `"<pad>"`, and merges the caller column
mapping over the default `{"text": "text"}` (a falsy — absent or empty —
caller mapping keeps the default). `initialize_tokenizer` (not under src/)
is the loader applied to the handle when no tokenizer instance is given. -/
def TextCompletionDataset.init (initialize_tokenizer : String → Tokenizer)
    (tokenizer : Option Tokenizer) (tokenizer_handle : Option String)
    (column_mapping : Option PyDict) (model_type : Option String)
    (max_seq_len : Nat) (custom_formatting_fn : Option (PyDict → PyDict))
    (packing : Bool) : Except String TextCompletionDataset :=
  if tokenizer.isNone && tokenizer_handle.isNone then
    .error "Either a HF Tokenizer or a HF tokenizer handle must be provided"
  else
    let tok0 := match tokenizer with
      | some t => t
      | none => initialize_tokenizer (tokenizer_handle.getD "")
    let tok := { tok0 with pad_token := "<pad>" }
    .ok { max_seq_len := max_seq_len, tokenizer := tok,
          column_mapping := init_column_mapping column_mapping,
          model_type := model_type, custom_formatting_fn := custom_formatting_fn,
          packing := packing }

/-- The `if self.custom_formatting_fn: sample = self.custom_formatting_fn(sample)`
step at the head of `task_transform`. -/
def TextCompletionDataset.apply_custom_formatting (ds : TextCompletionDataset)
    (sample : PyDict) : PyDict :=
  match ds.custom_formatting_fn with
  | some f => f sample
  | none => sample

/-- `TextCompletionDataset.task_transform`: apply the custom formatting
function if present, then return `{"text": sample[self.column_mapping["text"]]}`;
a missing key raises (KeyError). -/
def TextCompletionDataset.task_transform (ds : TextCompletionDataset)
    (sample : PyDict) : Except String PyDict :=
  match dictGet? ds.column_mapping "text" with
  | none => .error "KeyError: text"
  | some col =>
    match dictGet? (ds.apply_custom_formatting sample) col with
    | none => .error ("KeyError: " ++ col)
    | some v => .ok [("text", v)]

/-- `TextCompletionDataset.model_transform`: wrap the text with `<bos>`/`<eos>`,
tokenize to `max_seq_len` via `HFtokenize`, and derive `label_ids` by the
flat `np.roll(input_ids, -1)` followed by `label_ids[:, -1] = pad_token_id`. -/
def TextCompletionDataset.model_transform (ds : TextCompletionDataset)
    (sample : PyDict) : Except String (Arr × Arr × Arr) :=
  match dictGet? sample "text" with
  | none => .error "KeyError: text"
  | some text =>
    let full_seq := HFtokenize ("<bos>" ++ text ++ "<eos>") ds.tokenizer ds.max_seq_len
    let input_ids := full_seq.1
    let attention_mask := full_seq.2
    let label_ids := make_label_ids ds.tokenizer.pad_token_id input_ids
    .ok (input_ids, attention_mask, label_ids)

/-- A model-specific input batch: the `"x"` dict (key order preserved) and
the single `"y"` array. -/
structure ModelInput where
  x : List (String × Arr)
  y : Arr
deriving DecidableEq, Repr

/-- The configuration error message raised by
`convert_to_model_specific_input` when the resolved model type is falsy. -/
def missingModelTypeMsg : String :=
  "Did you forget to specify model_type during Dataset creation? Please specify model_type or set MODEL_IMPLEMENTATION in global state. Supported types: `KerasHub`, `MaxText`."

/-- `TextCompletionDataset.convert_to_model_specific_input`: resolve the
model type as `global_state.get_global_attribute("MODEL_IMPLEMENTATION",
self.model_type)` (ambient wins), raise on a falsy resolved type, then
dispatch on the tag: MAXTEXT emits `{"x": {"tokens", "segment_ids",
"positions"}, "y": label_ids}` with `positions = np.arange(max_seq_len)[None, :]`
(a single row); KERASHUB emits `{"x": {"token_ids", "padding_mask"},
"y": label_ids}`; any other tag raises naming the unsupported type. -/
def TextCompletionDataset.convert_to_model_specific_input
    (ds : TextCompletionDataset) (g : Option String)
    (input_ids attention_mask label_ids : Arr) : Except String ModelInput :=
  match get_global_attribute g ds.model_type with
  | none => .error missingModelTypeMsg
  | some s =>
    if s = "" then .error missingModelTypeMsg
    else if s = ModelImplementationType.MAXTEXT then
      .ok { x := [("tokens", input_ids), ("segment_ids", attention_mask),
                  ("positions", [List.range ds.max_seq_len])],
            y := label_ids }
    else if s = ModelImplementationType.KERASHUB then
      .ok { x := [("token_ids", input_ids), ("padding_mask", attention_mask)],
            y := label_ids }
    else .error ("Unsupported model type: " ++ s)

/-- `TextCompletionDataset.process_sample`: the full pipeline
`task_transform` → `model_transform` → `convert_to_model_specific_input`.
The ambient global attribute is read, never written, and `self` is not
mutated, so the call returns the global state unchanged alongside the
result. -/
def TextCompletionDataset.process_sample (ds : TextCompletionDataset)
    (g : Option String) (sample : PyDict) :
    Except String ModelInput × Option String :=
  let r : Except String ModelInput :=
    match ds.task_transform sample with
    | .error e => .error e
    | .ok s =>
      match ds.model_transform s with
      | .error e => .error e
      | .ok (ids, am, labs) => ds.convert_to_model_specific_input g ids am labs
  (r, g)

/-- A concrete tokenizer used to instantiate witness statements. -/
def tok0 : Tokenizer :=
  { encode := fun _ => [5, 6], pad_token := "<pad>", pad_token_id := 9 }

/-- A concrete dataset fixture with the given model type and column mapping. -/
def mkDs (mt : Option String) (cm : PyDict) : TextCompletionDataset :=
  { max_seq_len := 4, tokenizer := tok0, column_mapping := cm,
    model_type := mt, custom_formatting_fn := none, packing := false }

/-- Fixture: a dataset whose `model_type` is the constructor default. -/
def ds0 : TextCompletionDataset :=
  mkDs TextCompletionDataset.default_model_type [("text", "text")]

/-- Fixture: a dataset constructed with `model_type` explicitly `None`. -/
def dsNone : TextCompletionDataset :=
  mkDs none [("text", "text")]

end Kithara

open Kithara

/-- C2: when the resolved backend tag is MAXTEXT,
`convert_to_model_specific_input` returns a mapping whose `"x"` keys are
exactly `tokens`, `segment_ids`, `positions` (in that order) and whose `"y"`
is the single array `label_ids`; when the resolved tag is the generic
KerasHub tag, the `"x"` keys are exactly `token_ids`, `padding_mask` and
`"y"` is `label_ids`. -/
theorem convert_eq_of_maxtext (ds : TextCompletionDataset) (g : Option String)
    (ids am lab : Arr)
    (h : get_global_attribute g ds.model_type = some ModelImplementationType.MAXTEXT) :
    ds.convert_to_model_specific_input g ids am lab =
      .ok { x := [("tokens", ids), ("segment_ids", am),
                  ("positions", [List.range ds.max_seq_len])], y := lab } := by
  unfold TextCompletionDataset.convert_to_model_specific_input
  rw [h]
  rfl

theorem convert_eq_of_kerashub (ds : TextCompletionDataset) (g : Option String)
    (ids am lab : Arr)
    (h : get_global_attribute g ds.model_type = some ModelImplementationType.KERASHUB) :
    ds.convert_to_model_specific_input g ids am lab =
      .ok { x := [("token_ids", ids), ("padding_mask", am)], y := lab } := by
  unfold TextCompletionDataset.convert_to_model_specific_input
  rw [h]
  rfl

theorem C2_backend_shape_invariant (ds : TextCompletionDataset) (g : Option String)
    (input_ids attention_mask label_ids : Arr) :
    (get_global_attribute g ds.model_type = some ModelImplementationType.MAXTEXT →
      ∃ m, ds.convert_to_model_specific_input g input_ids attention_mask label_ids = .ok m ∧
        m.x.map Prod.fst = ["tokens", "segment_ids", "positions"] ∧ m.y = label_ids) ∧
    (get_global_attribute g ds.model_type = some ModelImplementationType.KERASHUB →
      ∃ m, ds.convert_to_model_specific_input g input_ids attention_mask label_ids = .ok m ∧
        m.x.map Prod.fst = ["token_ids", "padding_mask"] ∧ m.y = label_ids) := by
  constructor
  · intro h
    exact ⟨_, convert_eq_of_maxtext ds g input_ids attention_mask label_ids h, rfl, rfl⟩
  · intro h
    exact ⟨_, convert_eq_of_kerashub ds g input_ids attention_mask label_ids h, rfl, rfl⟩

/-- C2 witness: the two branches instantiated on concrete datasets. -/
theorem C2_backend_shape_invariant_witness :
    (∃ m, (mkDs (some "MaxText") [("text", "text")]).convert_to_model_specific_input
        none [[1, 2, 3, 4]] [[1, 1, 1, 1]] [[2, 3, 4, 9]] = .ok m ∧
      m.x.map Prod.fst = ["tokens", "segment_ids", "positions"] ∧ m.y = [[2, 3, 4, 9]]) ∧
    (∃ m, ds0.convert_to_model_specific_input
        none [[1, 2, 3, 4]] [[1, 1, 1, 1]] [[2, 3, 4, 9]] = .ok m ∧
      m.x.map Prod.fst = ["token_ids", "padding_mask"] ∧ m.y = [[2, 3, 4, 9]]) :=
  ⟨(C2_backend_shape_invariant (mkDs (some "MaxText") [("text", "text")]) none
      [[1, 2, 3, 4]] [[1, 1, 1, 1]] [[2, 3, 4, 9]]).1 rfl,
   (C2_backend_shape_invariant ds0 none
      [[1, 2, 3, 4]] [[1, 1, 1, 1]] [[2, 3, 4, 9]]).2 rfl⟩

/-- C3: the ambient process-wide MODEL_IMPLEMENTATION attribute, when set,
decides the backend format regardless of the construction-time `model_type`
(the output of `convert_to_model_specific_input` does not depend on the
stored `model_type`); when the ambient attribute is unset, the
construction-time `model_type` is used, exactly as if it were the ambient
value. -/
theorem C3_ambient_precedence :
    (∀ (ds : TextCompletionDataset) (mt' : Option String) (v : String)
        (ids am lab : Arr),
      ({ ds with model_type := mt' } :
          TextCompletionDataset).convert_to_model_specific_input (some v) ids am lab =
        ds.convert_to_model_specific_input (some v) ids am lab) ∧
    (∀ (ds : TextCompletionDataset) (ids am lab : Arr),
      ds.convert_to_model_specific_input none ids am lab =
        ({ ds with model_type := none } :
          TextCompletionDataset).convert_to_model_specific_input ds.model_type ids am lab) := by
  constructor
  · intro ds mt' v ids am lab
    rfl
  · intro ds ids am lab
    cases h : ds.model_type <;>
      simp only [TextCompletionDataset.convert_to_model_specific_input,
        get_global_attribute, h]

/-- C7: an unsupported, non-falsy resolved model type makes
`convert_to_model_specific_input` raise a configuration error whose message
names the unsupported type, and no input mapping is returned. -/
theorem C7_unsupported_type_error (ds : TextCompletionDataset) (g : Option String)
    (ids am lab : Arr) (s : String)
    (hres : get_global_attribute g ds.model_type = some s)
    (hne : s ≠ "") (hmx : s ≠ ModelImplementationType.MAXTEXT)
    (hkh : s ≠ ModelImplementationType.KERASHUB) :
    ds.convert_to_model_specific_input g ids am lab =
      .error ("Unsupported model type: " ++ s) := by
  unfold TextCompletionDataset.convert_to_model_specific_input
  rw [hres]
  simp [hne, hmx, hkh]

/-- C7 witness: the unsupported tag `"Foo"` on a concrete call. -/
theorem C7_unsupported_type_error_witness :
    (get_global_attribute (some "Foo") ds0.model_type = some "Foo" ∧
      "Foo" ≠ "" ∧ "Foo" ≠ ModelImplementationType.MAXTEXT ∧
      "Foo" ≠ ModelImplementationType.KERASHUB) ∧
    ds0.convert_to_model_specific_input (some "Foo") [[1]] [[1]] [[1]] =
      .error ("Unsupported model type: " ++ "Foo") :=
  ⟨⟨rfl, by decide, by decide, by decide⟩,
   C7_unsupported_type_error ds0 (some "Foo") [[1]] [[1]] [[1]] "Foo"
     rfl (by decide) (by decide) (by decide)⟩

/-- C4 counterexample: a dataset constructed without an explicit
`model_type` argument receives the default tag `"KerasHub"`, so with the
ambient attribute unset `convert_to_model_specific_input` returns the
KerasHub-format input instead of raising a configuration error. -/
theorem C4_counterexample :
    (TextCompletionDataset.init (fun _ => tok0) (some tok0) none none
        TextCompletionDataset.default_model_type 4 none false).bind
      (fun ds => ds.convert_to_model_specific_input none
        [[1, 2, 3, 4]] [[1, 1, 1, 1]] [[2, 3, 4, 9]]) =
    .ok { x := [("token_ids", [[1, 2, 3, 4]]), ("padding_mask", [[1, 1, 1, 1]])],
          y := [[2, 3, 4, 9]] } := rfl

/-- C4 amended: when the dataset is constructed without an explicit
`model_type`, the parameter default `"KerasHub"` is stored, and with the
ambient attribute unset `convert_to_model_specific_input` silently emits
the KerasHub format; the configuration error is raised exactly when the
resolved tag is falsy, i.e. only when `model_type` was explicitly passed as
`None` or the empty string and the ambient attribute is unset. -/
theorem C4_amended_default_is_kerashub :
    (∀ ds : TextCompletionDataset,
      ds.model_type = TextCompletionDataset.default_model_type →
      ∀ ids am lab : Arr,
        ds.convert_to_model_specific_input none ids am lab =
          .ok { x := [("token_ids", ids), ("padding_mask", am)], y := lab }) ∧
    (∀ ds : TextCompletionDataset,
      ds.model_type = none ∨ ds.model_type = some "" →
      ∀ ids am lab : Arr,
        ds.convert_to_model_specific_input none ids am lab =
          .error missingModelTypeMsg) := by
  constructor
  · intro ds h ids am lab
    exact convert_eq_of_kerashub ds none ids am lab (by rw [get_global_attribute, h]; rfl)
  · intro ds h ids am lab
    unfold TextCompletionDataset.convert_to_model_specific_input
    rcases h with h | h
    · simp only [get_global_attribute, h]
    · simp only [get_global_attribute, h]
      rfl

/-- C4 amended witness: the default-tag dataset yields the KerasHub format;
an explicit `None` model type yields the configuration error. -/
theorem C4_amended_default_is_kerashub_witness :
    ds0.convert_to_model_specific_input none [[1, 2]] [[1, 1]] [[2, 9]] =
      .ok { x := [("token_ids", [[1, 2]]), ("padding_mask", [[1, 1]])], y := [[2, 9]] } ∧
    dsNone.convert_to_model_specific_input none [[1, 2]] [[1, 1]] [[2, 9]] =
      .error missingModelTypeMsg :=
  ⟨(C4_amended_default_is_kerashub.1 ds0 rfl [[1, 2]] [[1, 1]] [[2, 9]]),
   (C4_amended_default_is_kerashub.2 dsNone (Or.inl rfl) [[1, 2]] [[1, 1]] [[2, 9]])⟩

/-- C5 counterexample: on a MAXTEXT-tagged call whose sample has two batch
rows, the `positions` entry is the single row `arange(max_seq_len)` of
shape `[1, max_seq_len]`, not one row of positions per sample row. -/
theorem C5_counterexample :
    (mkDs (some "MaxText") [("text", "text")]).convert_to_model_specific_input none
        [[1, 2, 3, 4], [5, 6, 7, 8]] [[1, 1, 1, 1], [1, 1, 1, 1]]
        [[2, 3, 4, 9], [6, 7, 8, 9]] =
      .ok { x := [("tokens", [[1, 2, 3, 4], [5, 6, 7, 8]]),
                  ("segment_ids", [[1, 1, 1, 1], [1, 1, 1, 1]]),
                  ("positions", [[0, 1, 2, 3]])],
            y := [[2, 3, 4, 9], [6, 7, 8, 9]] } ∧
    ([[0, 1, 2, 3]] : Arr) ≠
      List.replicate ([[1, 2, 3, 4], [5, 6, 7, 8]] : Arr).length (List.range 4) :=
  ⟨rfl, by decide⟩

/-- C5 amended: on every MAXTEXT-resolved call the `positions` entry is
exactly the single row `arange(max_seq_len)` (shape `[1, max_seq_len]`,
broadcastable over the batch), independent of the batch size; it equals one
row of positions per sample row exactly in the batch-1 case produced by the
per-sample pipeline. -/
theorem C5_amended_positions_single_row (ds : TextCompletionDataset)
    (g : Option String) (ids am lab : Arr)
    (hres : get_global_attribute g ds.model_type = some ModelImplementationType.MAXTEXT) :
    ds.convert_to_model_specific_input g ids am lab =
      .ok { x := [("tokens", ids), ("segment_ids", am),
                  ("positions", [List.range ds.max_seq_len])], y := lab } ∧
    (ids.length = 1 →
      [List.range ds.max_seq_len] = List.replicate ids.length (List.range ds.max_seq_len)) := by
  constructor
  · exact convert_eq_of_maxtext ds g ids am lab hres
  · intro h1
    rw [h1]
    rfl

/-- C5 amended witness: a concrete MAXTEXT call with a batch-1 sample. -/
theorem C5_amended_positions_single_row_witness :
    (mkDs (some "MaxText") [("text", "text")]).convert_to_model_specific_input none
        [[1, 2, 3, 4]] [[1, 1, 1, 1]] [[2, 3, 4, 9]] =
      .ok { x := [("tokens", [[1, 2, 3, 4]]), ("segment_ids", [[1, 1, 1, 1]]),
                  ("positions", [List.range 4])], y := [[2, 3, 4, 9]] } ∧
    (([[1, 2, 3, 4]] : Arr).length = 1 →
      [List.range 4] = List.replicate ([[1, 2, 3, 4]] : Arr).length (List.range 4)) :=
  C5_amended_positions_single_row (mkDs (some "MaxText") [("text", "text")]) none
    [[1, 2, 3, 4]] [[1, 1, 1, 1]] [[2, 3, 4, 9]] rfl


/-- C9: constructing a `TextCompletionDataset` with neither a tokenizer nor a
tokenizer handle fails with a configuration error during construction;
construction succeeds whenever at least one of the two is supplied. -/
theorem C9_tokenizer_or_handle_required (load : String → Tokenizer)
    (cm : Option PyDict) (mt : Option String) (L : Nat)
    (f : Option (PyDict → PyDict)) (p : Bool) :
    TextCompletionDataset.init load none none cm mt L f p =
      .error "Either a HF Tokenizer or a HF tokenizer handle must be provided" ∧
    (∀ (t : Tokenizer) (h : Option String),
      (TextCompletionDataset.init load (some t) h cm mt L f p).isOk = true) ∧
    (∀ h : String,
      (TextCompletionDataset.init load none (some h) cm mt L f p).isOk = true) := by
  refine ⟨rfl, fun t h => rfl, fun h => rfl⟩

/-- C8: a raw sample that, after the custom formatting function (if any),
does not contain the column named by `column_mapping["text"]` makes
`task_transform` raise a KeyError naming that column; no partial result is
returned. -/
theorem C8_missing_column_is_hard_error (ds : TextCompletionDataset)
    (sample : PyDict) (c : String)
    (hmap : dictGet? ds.column_mapping "text" = some c)
    (hmiss : dictGet? (ds.apply_custom_formatting sample) c = none) :
    ds.task_transform sample = .error ("KeyError: " ++ c) := by
  simp only [TextCompletionDataset.task_transform, hmap, hmiss]

/-- C8 witness: a mapping sending `"text"` to column `"content"` and a
sample that lacks a `"content"` column. -/
theorem C8_missing_column_is_hard_error_witness :
    (dictGet? (mkDs (some "KerasHub") [("text", "content")]).column_mapping "text" =
        some "content" ∧
      dictGet? ((mkDs (some "KerasHub") [("text", "content")]).apply_custom_formatting
        [("other", "x")]) "content" = none) ∧
    (mkDs (some "KerasHub") [("text", "content")]).task_transform [("other", "x")] =
      .error ("KeyError: " ++ "content") :=
  ⟨⟨rfl, rfl⟩,
   C8_missing_column_is_hard_error (mkDs (some "KerasHub") [("text", "content")])
     [("other", "x")] "content" rfl rfl⟩

/-- C10: only the `"text"` entry of the column mapping matters: the stored
mapping is the default `{"text": "text"}` merged with the caller mapping
(caller value wins, default kept when absent), `task_transform` returns
exactly the one-key dict `{"text": v}` with `v` the looked-up column value,
and two datasets agreeing on the custom formatting function and on the
`"text"` lookup of their mappings produce identical `task_transform`
outputs, whatever other entries their mappings hold. -/
theorem C10_only_text_entry_consulted :
    (∀ (load : String → Tokenizer) (tk : Option Tokenizer) (th : Option String)
        (cm : Option PyDict) (mt : Option String) (L : Nat)
        (f : Option (PyDict → PyDict)) (p : Bool) (ds : TextCompletionDataset),
      TextCompletionDataset.init load tk th cm mt L f p = .ok ds →
        ds.column_mapping = init_column_mapping cm) ∧
    (∀ cm : Option PyDict,
      dictGet? (init_column_mapping cm) "text" =
        some ((dictGet? (cm.getD []) "text").getD "text")) ∧
    (∀ (ds : TextCompletionDataset) (sample out : PyDict),
      ds.task_transform sample = .ok out →
        ∃ c v, dictGet? ds.column_mapping "text" = some c ∧
          dictGet? (ds.apply_custom_formatting sample) c = some v ∧
          out = [("text", v)]) ∧
    (∀ (ds1 ds2 : TextCompletionDataset) (sample : PyDict),
      ds1.custom_formatting_fn = ds2.custom_formatting_fn →
      dictGet? ds1.column_mapping "text" = dictGet? ds2.column_mapping "text" →
        ds1.task_transform sample = ds2.task_transform sample) := by
  refine ⟨?_, ?_, ?_, ?_⟩
  · intro load tk th cm mt L f p ds h
    unfold TextCompletionDataset.init at h
    by_cases hc : (tk.isNone && th.isNone) = true
    · rw [if_pos hc] at h
      exact absurd h (by simp)
    · rw [if_neg hc] at h
      simp only [Except.ok.injEq] at h
      rw [← h]
  · intro cm
    match cm with
    | none => rfl
    | some [] => rfl
    | some (q :: m') =>
      simp [init_column_mapping, pyDictMerge, dictGet?]
      cases hfind : List.find? (fun p => p.1 == "text") (q :: m') with
      | none => rfl
      | some p => rfl
  · intro ds sample out h
    unfold TextCompletionDataset.task_transform at h
    cases hmap : dictGet? ds.column_mapping "text" with
    | none => simp [hmap] at h
    | some c =>
      cases hval : dictGet? (ds.apply_custom_formatting sample) c with
      | none => simp [hmap, hval] at h
      | some v =>
        simp only [hmap, hval, Except.ok.injEq] at h
        exact ⟨c, v, rfl, hval, h.symm⟩
  · intro ds1 ds2 sample hf hmap
    have hfmt : ds1.apply_custom_formatting sample = ds2.apply_custom_formatting sample := by
      unfold TextCompletionDataset.apply_custom_formatting
      rw [hf]
    unfold TextCompletionDataset.task_transform
    rw [hmap, hfmt]

/-- C10 witness: instances of the three hypothesis-bearing conjuncts —
the stored mapping of a concrete successful construction, a concrete
successful `task_transform`, and two mappings differing only in an entry
under a key other than `"text"` yielding the same output. -/
theorem C10_only_text_entry_consulted_witness :
    (mkDs (some "KerasHub") [("text", "body")]).column_mapping =
      init_column_mapping (some [("text", "body")]) ∧
    (∃ c v, dictGet? (mkDs (some "KerasHub") [("text", "body")]).column_mapping "text" =
        some c ∧
      dictGet? ((mkDs (some "KerasHub") [("text", "body")]).apply_custom_formatting
        [("body", "hello")]) c = some v ∧
      ([("text", "hello")] : PyDict) = [("text", v)]) ∧
    (mkDs (some "KerasHub") [("text", "body"), ("irrelevant", "x")]).task_transform
        [("body", "hello")] =
      (mkDs (some "KerasHub") [("text", "body")]).task_transform [("body", "hello")] :=
  ⟨C10_only_text_entry_consulted.1 (fun _ => tok0) (some tok0) none
      (some [("text", "body")]) (some "KerasHub") 4 none false
      (mkDs (some "KerasHub") [("text", "body")]) rfl,
   C10_only_text_entry_consulted.2.2.1 (mkDs (some "KerasHub") [("text", "body")])
      [("body", "hello")] [("text", "hello")] rfl,
   C10_only_text_entry_consulted.2.2.2
      (mkDs (some "KerasHub") [("text", "body"), ("irrelevant", "x")])
      (mkDs (some "KerasHub") [("text", "body")]) [("body", "hello")] rfl rfl⟩

/-- Dropping one element from an append with a nonempty left part drops it
from the left part. -/
theorem drop_one_append (s t : List Nat) (h : s ≠ []) :
    (s ++ t).drop 1 = s.drop 1 ++ t := by
  cases s with
  | nil => exact absurd rfl h
  | cons a s' => simp

/-- Key lemma for the flat `np.roll`: chunking the left-rotated
concatenation of equal-length rows back into rows and overwriting the last
column with the pad value shifts every row left by one and pads its tail —
whatever single element stands in for the wrapped-around head. -/
theorem set_last_col_listChunks_shift (L pad : Nat) (hL : 1 ≤ L) :
    ∀ rows : List (List Nat), (∀ r ∈ rows, r.length = L) → ∀ z : Nat,
      set_last_col pad (listChunks rows.length L (rows.flatten.drop 1 ++ [z])) =
        rows.map (fun r => r.drop 1 ++ [pad]) := by
  intro rows
  induction rows with
  | nil => intro _ z; rfl
  | cons r rest ih =>
    intro hlen z
    have hr : r.length = L := hlen r (by simp)
    have hrest : ∀ s ∈ rest, s.length = L := fun s hs => hlen s (by simp [hs])
    have hrne : r ≠ [] := by
      intro he
      rw [he] at hr
      simp at hr
      omega
    have hdlen : (r.drop 1).length = L - 1 := by
      rw [List.length_drop, hr]
    have hflat : (r :: rest).flatten.drop 1 ++ [z] =
        r.drop 1 ++ (rest.flatten ++ [z]) := by
      rw [List.flatten_cons, drop_one_append r rest.flatten hrne, List.append_assoc]
    rw [hflat]
    show set_last_col pad
        (listChunks (rest.length + 1) L (r.drop 1 ++ (rest.flatten ++ [z]))) = _
    rw [listChunks]
    have htake : (r.drop 1 ++ (rest.flatten ++ [z])).take L =
        r.drop 1 ++ (rest.flatten ++ [z]).take 1 := by
      rw [List.take_append_eq_append_take, List.take_of_length_le (by omega), hdlen]
      congr 2
      omega
    have hdrop : (r.drop 1 ++ (rest.flatten ++ [z])).drop L =
        (rest.flatten ++ [z]).drop 1 := by
      rw [List.drop_append_eq_append_drop, List.drop_eq_nil_of_le (by omega), hdlen]
      simp only [List.nil_append]
      congr 1
      omega
    rw [htake, hdrop]
    have ht1len : ((rest.flatten ++ [z]).take 1).length = 1 := by
      rw [List.length_take, List.length_append]
      simp
    have hhead : (r.drop 1 ++ (rest.flatten ++ [z]).take 1).take
        ((r.drop 1 ++ (rest.flatten ++ [z]).take 1).length - 1) ++ [pad] =
        r.drop 1 ++ [pad] := by
      rw [List.length_append, hdlen, ht1len, List.take_append_eq_append_take,
        List.take_of_length_le (by omega), hdlen]
      have h0 : L - 1 + 1 - 1 - (L - 1) = 0 := by omega
      rw [h0, List.take_zero, List.append_nil]
    have htail : set_last_col pad
        (listChunks rest.length L ((rest.flatten ++ [z]).drop 1)) =
        rest.map (fun r => r.drop 1 ++ [pad]) := by
      cases rest with
      | nil => rfl
      | cons s rest' =>
        have hsne : s ≠ [] := by
          intro he
          have := hrest s (by simp)
          rw [he] at this
          simp at this
          omega
        have harg : ((s :: rest').flatten ++ [z]).drop 1 =
            (s :: rest').flatten.drop 1 ++ [z] := by
          rw [List.flatten_cons, List.append_assoc,
            drop_one_append s (rest'.flatten ++ [z]) hsne,
            drop_one_append s rest'.flatten hsne, List.append_assoc]
        rw [harg]
        exact ih hrest z
    rw [set_last_col, List.map_cons, hhead, ← set_last_col, htail]
    rfl

/-- Closed form of the label derivation: on a batch whose rows all have
length `L ≥ 1`, `make_label_ids` shifts every row left by one and sets the
final slot to the pad id; no wrap-around value of the flat `np.roll`
survives into any row. -/
theorem make_label_ids_eq_shift (pad L : Nat) (rows : Arr) (hL : 1 ≤ L)
    (hlen : ∀ r ∈ rows, r.length = L) :
    make_label_ids pad rows = rows.map (fun r => r.drop 1 ++ [pad]) := by
  cases rows with
  | nil => rfl
  | cons r rest =>
    have hr : r.length = L := hlen r (by simp)
    obtain ⟨a, r', rfl⟩ : ∃ a r', r = a :: r' := by
      cases r with
      | nil => simp at hr; omega
      | cons a r' => exact ⟨a, r', rfl⟩
    unfold make_label_ids
    have hhead : (((a :: r') :: rest) : Arr).headD [] = a :: r' := rfl
    rw [hhead, hr]
    have hroll : np_roll_neg1 (((a :: r') :: rest) : Arr).flatten =
        (((a :: r') :: rest) : Arr).flatten.drop 1 ++ [a] := by
      unfold np_roll_neg1
      rw [List.flatten_cons]
      rfl
    rw [hroll]
    exact set_last_col_listChunks_shift L pad hL ((a :: r') :: rest) hlen a

/-- Per-row index form of the shift: lengths, the interior next-token
equations, and the padded final slot. -/
theorem shift_row_getD (r : List Nat) (pad L : Nat) (hL : 1 ≤ L)
    (hr : r.length = L) :
    (r.drop 1 ++ [pad]).length = L ∧
    (∀ i, i < L - 1 → (r.drop 1 ++ [pad]).getD i 0 = r.getD (i + 1) 0) ∧
    (r.drop 1 ++ [pad]).getD (L - 1) 0 = pad := by
  have hdlen : (r.drop 1).length = L - 1 := by
    rw [List.length_drop, hr]
  refine ⟨?_, ?_, ?_⟩
  · rw [List.length_append, hdlen]
    simp
    omega
  · intro i hi
    rw [List.getD_eq_getElem?_getD, List.getD_eq_getElem?_getD,
      List.getElem?_append_left (show i < (r.drop 1).length by omega),
      List.getElem?_drop, Nat.add_comm]
  · rw [List.getD_eq_getElem?_getD,
      List.getElem?_append_right (show (r.drop 1).length ≤ L - 1 by omega), hdlen]
    have h0 : L - 1 - (L - 1) = 0 := by omega
    rw [h0]
    rfl

/-- Every row the spec-modelled tokenization adapter emits has length
exactly `seq_len`. -/
theorem HFtokenize_row_length (text : String) (tok : Tokenizer) (L : Nat) :
    ∀ r ∈ (HFtokenize text tok L).1, r.length = L := by
  intro r hr
  unfold HFtokenize at hr
  simp only [List.mem_singleton] at hr
  subst hr
  rw [List.length_append, List.length_replicate, List.length_take]
  omega

/-- C1: for every sample accepted by `model_transform`, the returned
`label_ids` agrees with `input_ids` shifted left by one on every row `b`
and every interior index `i < max_seq_len - 1`, and the final slot of every
row is the pad token id — the wrap-around value produced by the flat
`np.roll` never survives into any row. -/
theorem C1_label_shift (ds : TextCompletionDataset) (sample : PyDict)
    (ids am labels : Arr)
    (hrun : ds.model_transform sample = .ok (ids, am, labels))
    (hL : 1 ≤ ds.max_seq_len) :
    labels.length = ids.length ∧
    ∀ b, b < ids.length →
      (labels.getD b []).length = ds.max_seq_len ∧
      (∀ i, i < ds.max_seq_len - 1 →
        (labels.getD b []).getD i 0 = (ids.getD b []).getD (i + 1) 0) ∧
      (labels.getD b []).getD (ds.max_seq_len - 1) 0 = ds.tokenizer.pad_token_id := by
  cases hx : dictGet? sample "text" with
  | none => simp [TextCompletionDataset.model_transform, hx] at hrun
  | some text =>
    simp only [TextCompletionDataset.model_transform, hx, Except.ok.injEq,
      Prod.mk.injEq] at hrun
    obtain ⟨h1, _, h3⟩ := hrun
    have hrows : ∀ r ∈ ids, r.length = ds.max_seq_len := by
      rw [← h1]
      exact HFtokenize_row_length _ _ _
    have hlab : labels = ids.map (fun r => r.drop 1 ++ [ds.tokenizer.pad_token_id]) := by
      rw [← h3, ← h1]
      exact make_label_ids_eq_shift _ _ _ hL (h1 ▸ hrows)
    subst hlab
    refine ⟨List.length_map _ _, ?_⟩
    intro b hb
    have hbget : (ids.map (fun r => r.drop 1 ++ [ds.tokenizer.pad_token_id])).getD b [] =
        (ids.getD b []).drop 1 ++ [ds.tokenizer.pad_token_id] := by
      rw [List.getD_eq_getElem?_getD, List.getD_eq_getElem?_getD, List.getElem?_map,
        List.getElem?_eq_getElem hb]
      rfl
    rw [hbget]
    exact shift_row_getD (ids.getD b []) ds.tokenizer.pad_token_id ds.max_seq_len hL
      (hrows (ids.getD b []) (by
        rw [List.getD_eq_getElem?_getD, List.getElem?_eq_getElem hb]
        exact List.getElem_mem hb))

/-- C1 witness: a concrete sample tokenizing to `[5, 6]` with
`max_seq_len = 4` and pad id `9`: `input_ids = [[5, 6, 9, 9]]` and
`label_ids = [[6, 9, 9, 9]]`. -/
theorem C1_label_shift_witness :
    (ds0.model_transform [("text", "hi")] =
        .ok ([[5, 6, 9, 9]], [[1, 1, 0, 0]], [[6, 9, 9, 9]]) ∧
      1 ≤ ds0.max_seq_len) ∧
    (([[6, 9, 9, 9]] : Arr).length = ([[5, 6, 9, 9]] : Arr).length ∧
      ∀ b, b < ([[5, 6, 9, 9]] : Arr).length →
        ((([[6, 9, 9, 9]] : Arr).getD b []).length = ds0.max_seq_len ∧
          (∀ i, i < ds0.max_seq_len - 1 →
            (([[6, 9, 9, 9]] : Arr).getD b []).getD i 0 =
              (([[5, 6, 9, 9]] : Arr).getD b []).getD (i + 1) 0) ∧
          (([[6, 9, 9, 9]] : Arr).getD b []).getD (ds0.max_seq_len - 1) 0 =
            ds0.tokenizer.pad_token_id)) :=
  ⟨⟨rfl, by decide⟩,
   C1_label_shift ds0 [("text", "hi")] [[5, 6, 9, 9]] [[1, 1, 0, 0]] [[6, 9, 9, 9]]
     rfl (by decide)⟩

/-- C6: `process_sample` is stateless and deterministic: a call returns the
ambient global state unchanged, and running the full pipeline a second time
on the same raw sample, from the state left by the first run, yields a
bit-identical result. -/
theorem C6_process_sample_deterministic (ds : TextCompletionDataset)
    (g : Option String) (sample : PyDict) :
    (ds.process_sample g sample).2 = g ∧
    (ds.process_sample (ds.process_sample g sample).2 sample).1 =
      (ds.process_sample g sample).1 :=
  ⟨rfl, rfl⟩
